import Mathlib

/-!
Verification of the deterministic action-selection / parameter-generation
pipeline of the integration-agent repository, as a shallow embedding.

Python strings are Lean `String`s, Python floats are `ℚ`, Python dicts are
association lists in insertion order, and code that can raise returns
`Except String _`.  Each definition mirrors one function of the source
(`src/action_selector.py`, `src/nodes/{generator,validator,repair,
workflow_generator}.py`, `src/graph.py`, `utils/helpers.py`).
-/

/-- ASCII lower-casing, modelling Python `str.lower()` on the ASCII strings
the pipeline manipulates. -/
def strLower (s : String) : String :=
  String.mk (s.toList.map Char.toLower)

/-- `needleAt needle hay`: `needle` occurs at the start of `hay`. -/
def needleAt : List Char → List Char → Bool
  | [], _ => true
  | _ :: _, [] => false
  | a :: as, b :: bs => a == b && needleAt as bs

/-- `inChars needle hay`: `needle` occurs somewhere inside `hay`
(model of Python `needle in hay` on strings). -/
def inChars : List Char → List Char → Bool
  | needle, [] => needle.isEmpty
  | needle, c :: rest => needleAt needle (c :: rest) || inChars needle rest

/-- Python `needle in hay` for strings. -/
def containsSub (needle hay : String) : Bool :=
  inChars needle.toList hay.toList

/-- Python `str.isdigit()` restricted to ASCII: non-empty and all digits. -/
def pyIsDigit (cs : List Char) : Bool :=
  !cs.isEmpty && cs.all Char.isDigit

/-- Python `str.replace(".", "", 1)`: remove the first `'.'` if any. -/
def removeFirstDot : List Char → List Char
  | [] => []
  | c :: cs => if c == '.' then cs else c :: removeFirstDot cs

/-- Python `str.title()` for the ASCII strings used here: the first letter of
every alphabetic run is upper-cased, the rest lower-cased. -/
def pyTitleGo : Bool → List Char → List Char
  | _, [] => []
  | prevAlpha, c :: cs =>
    (if c.isAlpha then (if prevAlpha then c.toLower else c.toUpper) else c) ::
      pyTitleGo c.isAlpha cs

/-- Python `str.title()`. -/
def pyTitle (s : String) : String :=
  String.mk (pyTitleGo false s.toList)

/-- Python `str.replace(" ", "_")`. -/
def spacesToUnderscores (s : String) : String :=
  String.mk (s.toList.map fun c => if c == ' ' then '_' else c)

/-- Python `str.strip("{}")`: drop leading and trailing brace characters. -/
def stripBraces (s : String) : String :=
  let isBrace : Char → Bool := fun c => c == '\x7b' || c == '\x7d'
  String.mk (((s.toList.dropWhile isBrace).reverse.dropWhile isBrace).reverse)

/-- JSON-like runtime values flowing through the pipeline's dict-typed state
(Python scalars, strings, lists and dicts). -/
inductive Value where
  | str (s : String)
  | int (n : Int)
  | num (q : ℚ)
  | bool (b : Bool)
  | null
  | obj (fields : List (String × Value))
  | arr (elems : List Value)

mutual

/-- Structural equality of values, modelling Python `==` on the values the
pipeline compares (template strings and scalars). -/
def valueBeq : Value → Value → Bool
  | .str a, .str b => a == b
  | .int a, .int b => a == b
  | .num a, .num b => a == b
  | .bool a, .bool b => a == b
  | .null, .null => true
  | .obj a, .obj b => fieldsBeq a b
  | .arr a, .arr b => elemsBeq a b
  | _, _ => false

/-- Equality of dict entry lists. -/
def fieldsBeq : List (String × Value) → List (String × Value) → Bool
  | [], [] => true
  | (k, v) :: rest, (k', v') :: rest' => k == k' && valueBeq v v' && fieldsBeq rest rest'
  | _, _ => false

/-- Equality of value lists. -/
def elemsBeq : List Value → List Value → Bool
  | [], [] => true
  | v :: rest, v' :: rest' => valueBeq v v' && elemsBeq rest rest'
  | _, _ => false

end

instance : BEq Value := ⟨valueBeq⟩

mutual

/-- Python `repr` of a value (used inside container renderings). -/
def pyRepr : Value → String
  | .str s => "\x27" ++ s ++ "\x27"
  | .int n => toString n
  | .num q => toString q
  | .bool b => cond b "True" "False"
  | .null => "None"
  | .obj fs => "\x7b" ++ pyReprFields fs ++ "\x7d"
  | .arr vs => "[" ++ pyReprElems vs ++ "]"

/-- Body of a dict rendering. -/
def pyReprFields : List (String × Value) → String
  | [] => ""
  | (k, v) :: rest =>
    "\x27" ++ k ++ "\x27: " ++ pyRepr v ++ (if rest.isEmpty then "" else ", ") ++
      pyReprFields rest

/-- Body of a list rendering. -/
def pyReprElems : List Value → String
  | [] => ""
  | v :: rest => pyRepr v ++ (if rest.isEmpty then "" else ", ") ++ pyReprElems rest

end

/-- Python `str()` of a value: like `repr` except that a top-level string is
rendered without quotes. -/
def pyStr : Value → String
  | .str s => s
  | v => pyRepr v

/-! ### A model of `json.loads` acceptance (JSON syntax check)

Used only by the validator's `json` interface branch; a string value is valid
iff it parses as a JSON document.  Escape sequences inside JSON strings are
modelled loosely (any escaped character is accepted). -/

/-- JSON whitespace. -/
def jsonWs (c : Char) : Bool :=
  c == ' ' || c == '\t' || c == '\n' || c == '\r'

/-- Drop leading JSON whitespace. -/
def skipWs (cs : List Char) : List Char :=
  cs.dropWhile jsonWs

/-- Consume the rest of a JSON string after the opening quote; return the
remainder after the closing quote. -/
def jsonStringRest (cs : List Char) : Option (List Char) :=
  match cs with
  | [] => none
  | '"' :: rest => some rest
  | '\\' :: [] => none
  | '\\' :: _ :: rest => jsonStringRest rest
  | _ :: rest => jsonStringRest rest
termination_by cs.length

/-- Consume one or more digits. -/
def jsonDigits (cs : List Char) : Option (List Char) :=
  if (cs.takeWhile Char.isDigit).isEmpty then none
  else some (cs.dropWhile Char.isDigit)

/-- Consume an optional fractional part. -/
def jsonFrac : List Char → Option (List Char)
  | '.' :: rest => jsonDigits rest
  | cs => some cs

/-- Consume an optional exponent part. -/
def jsonExpPart : List Char → Option (List Char)
  | c :: rest =>
    if c == 'e' || c == 'E' then
      match rest with
      | s :: rest' => if s == '+' || s == '-' then jsonDigits rest' else jsonDigits rest
      | [] => none
    else some (c :: rest)
  | [] => some []

/-- Consume a JSON number. -/
def jsonNumber (cs : List Char) : Option (List Char) :=
  let cs1 := match cs with
    | '-' :: rest => rest
    | _ => cs
  match jsonDigits cs1 with
  | none => none
  | some cs2 =>
    match jsonFrac cs2 with
    | none => none
    | some cs3 => jsonExpPart cs3

mutual

/-- Consume one JSON value, with fuel. -/
def jsonValue (fuel : Nat) (cs : List Char) : Option (List Char) :=
  match fuel with
  | 0 => none
  | fuel' + 1 =>
    match skipWs cs with
    | 'n' :: 'u' :: 'l' :: 'l' :: rest => some rest
    | 't' :: 'r' :: 'u' :: 'e' :: rest => some rest
    | 'f' :: 'a' :: 'l' :: 's' :: 'e' :: rest => some rest
    | '"' :: rest => jsonStringRest rest
    | '[' :: rest =>
      (match skipWs rest with
       | ']' :: rest' => some rest'
       | cs' => jsonElems fuel' cs')
    | '\x7b' :: rest =>
      (match skipWs rest with
       | '\x7d' :: rest' => some rest'
       | cs' => jsonMembers fuel' cs')
    | cs' => jsonNumber cs'

/-- Consume the non-empty element list of a JSON array, including the
closing bracket. -/
def jsonElems (fuel : Nat) (cs : List Char) : Option (List Char) :=
  match fuel with
  | 0 => none
  | fuel' + 1 =>
    match jsonValue fuel' cs with
    | none => none
    | some rest =>
      match skipWs rest with
      | ',' :: rest' => jsonElems fuel' rest'
      | ']' :: rest' => some rest'
      | _ => none

/-- Consume the non-empty member list of a JSON object, including the
closing brace. -/
def jsonMembers (fuel : Nat) (cs : List Char) : Option (List Char) :=
  match fuel with
  | 0 => none
  | fuel' + 1 =>
    match skipWs cs with
    | '"' :: rest =>
      (match jsonStringRest rest with
       | none => none
       | some rest' =>
         match skipWs rest' with
         | ':' :: rest'' =>
           (match jsonValue fuel' rest'' with
            | none => none
            | some rest3 =>
              match skipWs rest3 with
              | ',' :: r => jsonMembers fuel' r
              | '\x7d' :: r => some r
              | _ => none)
         | _ => none)
    | _ => none

end

/-- `json.loads` succeeds on `s`. -/
def jsonParses (s : String) : Bool :=
  match jsonValue (s.length + 1) s.toList with
  | some rest => (skipWs rest).isEmpty
  | none => false

/-! ### Data model -/

/-- One declared parameter of an action (`inputs_schema` entry).  Absent dict
keys are `none`; `required` defaults to `false` as in the source's
`param.get("required", False)`. -/
structure ParamSpec where
  name : String
  interface : Option String := none
  required : Bool := false
  test_value : Option Value := none
  options : Option (List Value) := none
  label : Option String := none
  placeholder : Option String := none

/-- One bound parameter produced by the generator or the repair node. -/
structure BoundParam where
  name : String
  value : Value
  source : String

/-- Python `==` on bound-parameter dicts. -/
def boundParamBeq (p q : BoundParam) : Bool :=
  p.name == q.name && valueBeq p.value q.value && p.source == q.source

/-- One validation error. -/
structure VError where
  parameter : String
  error : String
  suggestion : Option String := none
deriving DecidableEq

/-- The validator's output stored in the state. -/
structure ValidationResult where
  is_valid : Bool
  errors : List VError
deriving DecidableEq

/-- One catalog action (`integration`, `action`, `inputs_schema`; the opaque
`definition` template is passed through unmodified and not modelled). -/
structure IntegrationAction where
  integration : String
  action : String
  inputs_schema : List ParamSpec

/-- The dynamically-typed `action_schema` state field: the nodes accept
either a bare inputs-schema list or a whole action dict. -/
inductive SchemaVal where
  | list (specs : List ParamSpec)
  | dict (a : IntegrationAction)

/-- The `isinstance(action_schema, list)` dispatch shared by generator,
validator and repair: a list is the schema itself, a dict contributes its
`inputs_schema` field. -/
def SchemaVal.inputs : SchemaVal → List ParamSpec
  | .list specs => specs
  | .dict a => a.inputs_schema

/-- A workflow step's `config` dict: either a generated-code config or an
integration-call config whose `parameters` / `dynamic` keys may each be
absent. -/
inductive StepConfig where
  | code (language : String) (function : String)
  | integrationCfg (integration : String) (action : String)
      (parameters : Option (List (String × Value)))
      (dynamic : Option (List (String × Value)))

/-- One workflow step. -/
structure WorkflowStep where
  name : String
  type : String
  config : StepConfig

/-- One entry of the synthesized `input_schema`; optional keys are absent in
the fallback entries. -/
structure InputEntry where
  name : String
  required : Bool
  type : String
  label : Option String := none
  group_id : Option String := none
  placeholder : Option String := none
  test_value : Option Value := none
  options : Option (List Value) := none

/-- The synthesized workflow document. -/
structure WorkflowDoc where
  input_schema : List InputEntry
  definition : List WorkflowStep

/-- The pipeline state threaded through the graph nodes, with the default
each node's `state.get(key, default)` supplies for an absent key. -/
structure AgentState where
  user_request : String := ""
  context_variables : List (String × Value) := []
  selected_action : Option IntegrationAction := none
  action_schema : SchemaVal := .list []
  parameters : List BoundParam := []
  missing_parameters : List String := []
  parameter_confidence : ℚ := 0
  validation_result : Option ValidationResult := none
  repair_suggestions : List String := []
  repair_applied : Bool := false
  workflow_definition : Option WorkflowDoc := none
  transformations_added : List String := []

/-! ### `utils/helpers.py`: parameter extraction from user text -/

/-- Scanner behind `re.findall(r'"([^"]*)"', request)`: collect the contents
of non-overlapping quoted spans, left to right; an unterminated opening quote
yields no further match. -/
def findQuotedGo : Bool → List Char → List Char → List String
  | _, _, [] => []
  | false, _, '"' :: rest => findQuotedGo true [] rest
  | false, acc, _ :: rest => findQuotedGo false acc rest
  | true, acc, '"' :: rest => String.mk acc.reverse :: findQuotedGo false [] rest
  | true, acc, c :: rest => findQuotedGo true (c :: acc) rest

/-- `extract_parameters_from_request`: the first quoted string becomes the
`title` and/or `name` parameter when those words occur in the request. -/
def extract_parameters_from_request (request : String) : List (String × Value) :=
  let quoted_strings := findQuotedGo false [] request.toList
  let request_lower := strLower request
  (if containsSub "title" request_lower && !quoted_strings.isEmpty then
    [("title", Value.str (quoted_strings.headD ""))]
  else []) ++
  (if containsSub "name" request_lower && !quoted_strings.isEmpty then
    [("name", Value.str (quoted_strings.headD ""))]
  else [])

/-! ### `src/nodes/generator.py`: ParameterGeneratorTool -/

/-- What one loop iteration of the generator contributes for one spec. -/
inductive GenOutcome where
  | bound (p : BoundParam)
  | missing (name : String)
  | skipped

/-- The generator's context-variable test:
`param_name.lower() in var_name.lower()`. -/
def ctxMatches (param_name var_name : String) : Bool :=
  containsSub (strLower param_name) (strLower var_name)

/-- One iteration of the generator's loop over the schema. -/
def genOne (extracted ctx : List (String × Value)) (spec : ParamSpec) : GenOutcome :=
  match List.lookup spec.name extracted with
  | some v => .bound ⟨spec.name, v, "user_request"⟩
  | none =>
    match ctx.find? (fun kv => ctxMatches spec.name kv.1) with
    | some kv => .bound ⟨spec.name, .str ("\x7b\x7b" ++ kv.1 ++ "\x7d\x7d"), "context"⟩
    | none =>
      if spec.required then .missing spec.name
      else
        match spec.test_value with
        | some tv => .bound ⟨spec.name, tv, "default"⟩
        | none => .skipped

/-- The generator's loop: the `parameters` and `missing_parameters` lists it
appends to, in schema order. -/
def genFold (extracted ctx : List (String × Value)) :
    List ParamSpec → List BoundParam × List String
  | [] => ([], [])
  | spec :: rest =>
    let r := genFold extracted ctx rest
    match genOne extracted ctx spec with
    | .bound p => (p :: r.1, r.2)
    | .missing n => (r.1, n :: r.2)
    | .skipped => r

/-- `ParameterGeneratorTool._run`: rebuilds `parameters`,
`missing_parameters` and `parameter_confidence` from the schema, the context
variables and the user request. -/
def generatorRun (s : AgentState) : AgentState :=
  let extracted := extract_parameters_from_request s.user_request
  let inputs := s.action_schema.inputs
  let required_params := inputs.filter (·.required)
  let r := genFold extracted s.context_variables inputs
  let confidence : ℚ :=
    if required_params.length = 0 then 1
    else ((required_params.length : ℚ) - (r.2.length : ℚ)) / (required_params.length : ℚ)
  { s with parameters := r.1, missing_parameters := r.2, parameter_confidence := confidence }

/-! ### `src/nodes/validator.py`: ParameterValidatorTool -/

/-- The validator's name→value lookup
`{p["name"]: p["value"] for p in parameters}`: the last write wins. -/
def paramLookup (ps : List BoundParam) (n : String) : Option Value :=
  match ps with
  | [] => none
  | p :: rest =>
    match paramLookup rest n with
    | some v => some v
    | none => if p.name == n then some p.value else none

/-- `isinstance(value, (int, float))`; Python `bool` is a subclass of `int`,
so booleans are numeric here. -/
def isNumericValue : Value → Bool
  | .int _ => true
  | .num _ => true
  | .bool _ => true
  | _ => false

/-- `ParameterValidatorTool._is_valid_json`. -/
def is_valid_json : Value → Bool
  | .obj _ => true
  | .arr _ => true
  | .str s => jsonParses s
  | _ => false

/-- The validator's number test:
`isinstance(value, (int, float)) or str(value).replace(".", "", 1).isdigit()`. -/
def numberOk (v : Value) : Bool :=
  isNumericValue v || pyIsDigit (removeFirstDot (pyStr v).toList)

/-- One iteration of the validator's loop for one schema entry, given the
lookup result for its name. -/
def checkOne (spec : ParamSpec) (found : Option Value) : List VError :=
  match found with
  | none =>
    if spec.required then
      [⟨spec.name, "Required parameter is missing",
        some "Please provide a value for this parameter"⟩]
    else []
  | some v =>
    let interface := spec.interface.getD "short_text"
    if interface == "number" && !numberOk v then
      [⟨spec.name, "Expected a number, got: " ++ pyStr v,
        some "Please provide a numeric value"⟩]
    else if interface == "json" && !is_valid_json v then
      [⟨spec.name, "Expected valid JSON, got: " ++ pyStr v,
        some "Please provide a properly formatted JSON object"⟩]
    else
      match spec.options with
      | some os =>
        if interface == "single_select" && !os.isEmpty && !(os.any (valueBeq v)) then
          [⟨spec.name,
            "Value \x27" ++ pyStr v ++ "\x27 not in allowed options: " ++ pyRepr (.arr os),
            some ("Please select one of the allowed options: " ++ pyRepr (.arr os))⟩]
        else []
      | none => []

/-- `ParameterValidatorTool._run`. -/
def validatorRun (s : AgentState) : AgentState :=
  let inputs := s.action_schema.inputs
  let errors :=
    (inputs.map (fun sp => checkOne sp (paramLookup s.parameters sp.name))).flatten
  { s with validation_result := some ⟨errors.isEmpty, errors⟩ }

/-! ### `src/nodes/repair.py`: RepairNode -/

/-- One iteration of the repair loop over the validation errors. -/
def repairStep (acc : List BoundParam × List String) (err : VError) :
    List BoundParam × List String :=
  let suggestions := acc.2 ++ [err.parameter ++ ": " ++ err.suggestion.getD "Please check this parameter"]
  let params :=
    if containsSub "Required parameter is missing" err.error then
      acc.1 ++ [⟨err.parameter, .str ("\x7b\x7b" ++ err.parameter ++ "\x7d\x7d"), "repair"⟩]
    else acc.1
  (params, suggestions)

/-- `RepairNode._run`: appends a placeholder binding for every
missing-required error and records human-readable suggestions. -/
def repairRun (s : AgentState) : AgentState :=
  let validation_errors := (s.validation_result.map (·.errors)).getD []
  let r := validation_errors.foldl repairStep (s.parameters, [])
  { s with parameters := r.1, repair_suggestions := r.2, repair_applied := true }

/-! ### `src/graph.py`: conditional routing -/

/-- `validation_router` of `create_enhanced_integration_agent`. -/
def validation_router (s : AgentState) : String :=
  if (s.validation_result.map (·.is_valid)).getD false then "workflow_generator"
  else "repair"

/-- One pass of the graph's `validator → repair → parameter_generator →
validator` cycle, as wired by `workflow.add_edge`/`add_conditional_edges`. -/
def repairCycle (s : AgentState) : AgentState :=
  validatorRun (generatorRun (repairRun s))

/-! ### `src/action_selector.py` -/

/-- The parsed request consumed by the selector.  `platform := none` models
an absent `"platform"` key (or a `None` value): either way the source raises
before filtering.  For the other fields `none` models Python `None`, which
the scorer treats as falsy. -/
structure ParsedRequest where
  platform : Option String := none
  action_intent : Option String := none
  entity_type : Option String := none
  parameters : List (String × Value) := []

/-- `calculate_action_relevance`. -/
def calculate_action_relevance (action : IntegrationAction)
    (parsed_request : ParsedRequest) : ℚ :=
  let action_name := strLower action.action
  let action_intent := strLower (parsed_request.action_intent.getD "")
  let entity_type := strLower (parsed_request.entity_type.getD "")
  let intentScore : ℚ :=
    if !action_intent.isEmpty && containsSub action_intent action_name then 0.4 else 0
  let entityScore : ℚ :=
    if !entity_type.isEmpty && containsSub entity_type action_name then 0.4 else 0
  let request_params := (parsed_request.parameters.map Prod.fst).dedup
  let action_params := (action.inputs_schema.map (·.name)).dedup
  let param_overlap := (request_params.filter (fun k => action_params.contains k)).length
  let overlapScore : ℚ :=
    if request_params.length > 0 then
      0.2 * (param_overlap : ℚ) / (request_params.length : ℚ)
    else 0
  min (intentScore + entityScore + overlapScore) 1

/-- A `{"action": ..., "score": ...}` pair of the selector's ranking list. -/
structure ScoredAction where
  action : IntegrationAction
  score : ℚ

/-- `scored_actions.sort(key=lambda x: x["score"], reverse=True)`: Python's
sort is stable, and `reverse=True` keeps equal-key elements in their original
order, so this is the stable descending insertion sort. -/
def sortScoredDesc (l : List ScoredAction) : List ScoredAction :=
  List.insertionSort (fun a b => b.score ≤ a.score) l

/-- The selector's result dict; keys absent in a variant are `none`. -/
structure SelectResult where
  status : String
  message : Option String := none
  action : Option IntegrationAction := none
  confidence : ℚ
  alternatives : Option (List IntegrationAction) := none
  needs_clarification : Option Bool := none

/-- `select_integration_action`; `.error` models an uncaught Python
exception. -/
def select_integration_action (parsed_request : ParsedRequest)
    (integration_actions : List IntegrationAction) : Except String SelectResult :=
  match parsed_request.platform with
  | none => .error "KeyError: \x27platform\x27"
  | some platform =>
    let platform_actions :=
      integration_actions.filter fun a => strLower a.integration == strLower platform
    if platform_actions.isEmpty then
      .ok { status := "error",
            message := some ("No actions available for platform: " ++ platform),
            action := none, confidence := 0 }
    else
      let scored_actions :=
        platform_actions.map fun a => ScoredAction.mk a (calculate_action_relevance a parsed_request)
      match sortScoredDesc scored_actions with
      | [] => .error "IndexError: list index out of range"
      | best :: rest =>
        let needs_clarification :=
          match rest with
          | [] => false
          | second :: _ => decide (best.score - second.score < 0.3)
        .ok { status := if best.score > 0.5 then "success" else "low_confidence",
              action := some best.action,
              confidence := best.score,
              alternatives :=
                some (if needs_clarification then (rest.take 2).map (·.action) else []),
              needs_clarification := some needs_clarification }

/-! ### `src/nodes/workflow_generator.py`: WorkflowGeneratorTool -/

/-- Python dict assignment `d[k] = v` on an insertion-ordered dict. -/
def dictInsert (k : String) (v : Value) (d : List (String × Value)) :
    List (String × Value) :=
  if d.any (fun kv => kv.1 == k) then
    d.map (fun kv => if kv.1 == k then (k, v) else kv)
  else d ++ [(k, v)]

/-- Lookup in a dict built by a comprehension (the last write wins). -/
def lastAssoc (l : List (String × String)) (k : String) : Option String :=
  match l with
  | [] => none
  | (k', v) :: rest =>
    match lastAssoc rest k with
    | some r => some r
    | none => if k' == k then some v else none

/-- The two transform classifications of `_analyze_parameters`. -/
structure ParamAnalysis where
  json_params : List BoundParam
  mapping_params : List BoundParam

/-- `WorkflowGeneratorTool._analyze_parameters`; `none` models the Python
`None` schema argument. -/
def analyzeParameters (parameters : List BoundParam)
    (action_schema : Option SchemaVal) : ParamAnalysis :=
  let inputs_schema := match action_schema with
    | none => []
    | some sv => sv.inputs
  let schema_types := inputs_schema.map fun sp => (sp.name, sp.interface.getD "short_text")
  let typeOf := fun n => (lastAssoc schema_types n).getD "short_text"
  { json_params := parameters.filter fun p =>
      typeOf p.name == "json" &&
        (match p.value with | .str _ => true | _ => false) &&
        p.source != "user_request",
    mapping_params := parameters.filter fun p =>
      containsSub "." (pyStr p.value) && p.source == "context" }

/-- The generated body of the `json_parser` code step. -/
def jsonParserCode (json_params : List BoundParam) : String :=
  "\nimport json\n\n# Parse JSON parameters\nparsed_params = \x7b\x7d\n" ++
  String.join (json_params.map fun p =>
    "\ntry:\n    parsed_params[\x27" ++ p.name ++ "\x27] = json.loads(" ++ pyStr p.value ++
      ")\nexcept:\n    parsed_params[\x27" ++ p.name ++ "\x27] = " ++ pyStr p.value ++ "\n") ++
  "\nreturn parsed_params\n"

/-- `_create_json_parser_step`. -/
def createJsonParserStep (json_params : List BoundParam) : WorkflowStep :=
  ⟨"json_parser", "code", .code "python" (jsonParserCode json_params)⟩

/-- Python `repr` of a list of strings (an f-string interpolating
`path_parts[1:]`). -/
def pyListReprStrings (l : List String) : String :=
  "[" ++ String.intercalate ", " (l.map fun s => "\x27" ++ s ++ "\x27") ++ "]"

/-- The generated body of the `data_mapper` code step. -/
def dataMapperCode (mapping_params : List BoundParam) : String :=
  "\n# Extract and map data from context\nmapped_params = \x7b\x7d\n" ++
  String.join (mapping_params.map fun p =>
    let path_parts := (stripBraces (pyStr p.value)).splitOn "."
    "\n# Extract " ++ p.name ++ " from " ++ pyStr p.value ++
      "\ntry:\n    value = " ++ path_parts.headD "" ++
      "\n    for key in " ++ pyListReprStrings path_parts.tail ++
      ":\n        value = value.get(key, None) if isinstance(value, dict) else getattr(value, key, None)\n    mapped_params[\x27" ++
      p.name ++ "\x27] = value\nexcept:\n    mapped_params[\x27" ++ p.name ++ "\x27] = None\n") ++
  "\nreturn mapped_params\n"

/-- `_create_data_mapping_step`. -/
def createDataMapperStep (mapping_params : List BoundParam) : WorkflowStep :=
  ⟨"data_mapper", "code", .code "python" (dataMapperCode mapping_params)⟩

/-- `_adapt_integration_config`: `webflow_v2`, `contentful` and `notion`
replace the flat `parameters` key with a `dynamic` key. -/
def adapt_integration_config (a : IntegrationAction)
    (params : List (String × Value)) : StepConfig :=
  if ["webflow_v2", "contentful", "notion"].contains a.integration then
    .integrationCfg ("\x7b" ++ a.integration ++ "_integration\x7d") a.action none (some params)
  else
    .integrationCfg ("\x7b" ++ a.integration ++ "_integration\x7d") a.action (some params) none

/-- Python `param in list` membership by value equality. -/
def memberByBeq (p : BoundParam) (l : List BoundParam) : Bool :=
  l.any (boundParamBeq p)

/-- `_create_integration_step`; raises (`.error`) unless the schema argument
is a dict carrying `integration` / `action` keys. -/
def createIntegrationStep (action_schema : Option SchemaVal)
    (parameters : List BoundParam) (previous_steps : List WorkflowStep) :
    Except String WorkflowStep :=
  match action_schema with
  | some (.dict a) =>
    let analysis := analyzeParameters parameters (some (.dict a))
    let integration_params := parameters.foldl (fun d p =>
      let v :=
        if previous_steps.any (fun st => st.name == "json_parser") &&
            memberByBeq p analysis.json_params then
          Value.str ("\x7b\x7bjson_parser.output[\x27" ++ p.name ++ "\x27]\x7d\x7d")
        else if previous_steps.any (fun st => st.name == "data_mapper") &&
            memberByBeq p analysis.mapping_params then
          Value.str ("\x7b\x7bdata_mapper.output[\x27" ++ p.name ++ "\x27]\x7d\x7d")
        else p.value
      dictInsert p.name v d) []
    .ok ⟨a.integration ++ "_" ++ spacesToUnderscores (strLower a.action), "integration",
         adapt_integration_config a integration_params⟩
  | _ => .error "TypeError: the action schema is not a dict"

/-- `_map_interface_to_type`. -/
def map_interface_to_type (interface : String) : String :=
  match interface with
  | "short_text" => "short_text"
  | "long_text" => "long_text"
  | "json" => "json"
  | "single_select" => "single_select"
  | "number" => "number"
  | "integration" => "integration"
  | "dynamic" => "json"
  | _ => "short_text"

/-- `_create_input_schema`; raises (`.error`) unless the schema argument is a
dict. -/
def createInputSchema (parameters : List BoundParam)
    (action_schema : Option SchemaVal) : Except String (List InputEntry) :=
  match action_schema with
  | some (.dict a) =>
    let auth : InputEntry :=
      { name := a.integration ++ "_integration", required := true, type := "integration",
        label := some (pyTitle a.integration ++ " Integration"),
        group_id := some "authentication" }
    let userInputs := parameters.filterMap fun p =>
      if p.source == "user_request" then
        match a.inputs_schema.find? (fun sp => sp.name == p.name) with
        | some sp =>
          some { name := p.name, required := sp.required,
                 type := map_interface_to_type (sp.interface.getD "short_text"),
                 label := some (sp.label.getD p.name),
                 group_id := some "parameters",
                 placeholder := some (sp.placeholder.getD ""),
                 test_value := some p.value,
                 options := sp.options }
        | none => none
      else none
    .ok (auth :: userInputs)
  | _ => .error "TypeError: the action schema is not a dict"

/-- `WorkflowGeneratorTool._run`: emits transform steps, then the integration
step (with the bare-except fallback), and assembles the workflow document.
The explanation text does not feed any later stage and is not modelled. -/
def workflowGeneratorRun (s : AgentState) : AgentState :=
  let schemaArg : Option SchemaVal :=
    match s.action_schema with
    | .list [] => s.selected_action.map SchemaVal.dict
    | sv => some sv
  let analysis := analyzeParameters s.parameters schemaArg
  let transformSteps :=
    (if !analysis.json_params.isEmpty then [createJsonParserStep analysis.json_params] else []) ++
    (if !analysis.mapping_params.isEmpty then [createDataMapperStep analysis.mapping_params] else [])
  let transformations :=
    (if !analysis.json_params.isEmpty then ["JSON parsing"] else []) ++
    (if !analysis.mapping_params.isEmpty then ["Data mapping"] else [])
  let integration_step :=
    match createIntegrationStep schemaArg s.parameters transformSteps with
    | .ok st => st
    | .error _ =>
      ⟨"integration_action", "integration",
       .integrationCfg ((s.selected_action.map (·.integration)).getD "unknown")
         ((s.selected_action.map (·.action)).getD "unknown")
         (some (s.parameters.foldl (fun d p => dictInsert p.name p.value d) []))
         none⟩
  let steps := transformSteps ++ [integration_step]
  let input_schema :=
    match createInputSchema s.parameters schemaArg with
    | .ok l => l
    | .error _ => s.parameters.map fun p => InputEntry.mk p.name true "text" none none none none none
  { s with workflow_definition := some ⟨input_schema, steps⟩,
           transformations_added := transformations }

/-! ### Reference definitions and concrete fixtures -/

/-- Reference predicate transcribed from the spec's wording of the number
check: the value is numeric, or its string form is an unsigned decimal
numeral after removing at most one decimal point. -/
def specNumberValid (v : Value) : Bool :=
  isNumericValue v ||
    (decide (((pyStr v).toList.filter (· == '.')).length ≤ 1) &&
      pyIsDigit ((pyStr v).toList.filter (· != '.')))

/-- The `scored_actions` list the selector builds before sorting. -/
def scoredCandidates (parsed_request : ParsedRequest)
    (actions : List IntegrationAction) : List ScoredAction :=
  actions.map fun a => ⟨a, calculate_action_relevance a parsed_request⟩

/-- The single required `channel` parameter of the round-trip scenario. -/
def channelSpec : ParamSpec :=
  { name := "channel", interface := some "short_text", required := true }

/-- The one-action Slack catalog of the round-trip scenario. -/
def slackSendMessage : IntegrationAction :=
  ⟨"slack", "Send Message", [channelSpec]⟩

/-- The parsed intent of the round-trip scenario. -/
def slackIntent : ParsedRequest :=
  { platform := some "slack", action_intent := some "send", entity_type := some "message" }

/-- The pipeline state entering the generator in the round-trip scenario:
the retrieved schema is the inputs-schema list (as `schema_retriever` stores
it), there is no matching context variable, and the request text carries no
extractable value for `channel`. -/
def roundTripState : AgentState :=
  { user_request := "Send a Slack message to the team",
    context_variables := [],
    selected_action := some slackSendMessage,
    action_schema := .list [channelSpec] }

/-- The validator's missing-required error for `channel`. -/
def channelMissingError : VError :=
  ⟨"channel", "Required parameter is missing",
   some "Please provide a value for this parameter"⟩

/-- A Notion action with one declared parameter. -/
def notionTitleSpec : ParamSpec :=
  { name := "title", interface := some "short_text", required := true }

/-- A Notion catalog action (`integration = "notion"`). -/
def notionCreatePage : IntegrationAction :=
  ⟨"notion", "Create Page", [notionTitleSpec]⟩

/-- A synthesis-stage state for the Notion action, shaped as the orchestrator
produces it: `action_schema` holds the inputs-schema list and one parameter
is bound. -/
def notionState : AgentState :=
  { user_request := "Create a Notion page",
    selected_action := some notionCreatePage,
    action_schema := .list [notionTitleSpec],
    parameters := [⟨"title", .str "Hello", "user_request"⟩] }

/-! ### Projection and preservation lemmas -/

lemma generatorRun_parameters (s : AgentState) :
    (generatorRun s).parameters =
      (genFold (extract_parameters_from_request s.user_request) s.context_variables
        s.action_schema.inputs).1 := rfl

lemma generatorRun_missing (s : AgentState) :
    (generatorRun s).missing_parameters =
      (genFold (extract_parameters_from_request s.user_request) s.context_variables
        s.action_schema.inputs).2 := rfl

lemma generatorRun_confidence (s : AgentState) :
    (generatorRun s).parameter_confidence =
      (if (s.action_schema.inputs.filter (·.required)).length = 0 then 1
       else (((s.action_schema.inputs.filter (·.required)).length : ℚ) -
             (((genFold (extract_parameters_from_request s.user_request)
                 s.context_variables s.action_schema.inputs).2.length : ℚ))) /
            ((s.action_schema.inputs.filter (·.required)).length : ℚ)) := rfl

lemma generatorRun_schema (s : AgentState) :
    (generatorRun s).action_schema = s.action_schema := rfl

lemma generatorRun_context (s : AgentState) :
    (generatorRun s).context_variables = s.context_variables := rfl

lemma generatorRun_request (s : AgentState) :
    (generatorRun s).user_request = s.user_request := rfl

lemma validatorRun_result (s : AgentState) :
    (validatorRun s).validation_result =
      some ⟨((s.action_schema.inputs.map
                (fun sp => checkOne sp (paramLookup s.parameters sp.name))).flatten).isEmpty,
            (s.action_schema.inputs.map
                (fun sp => checkOne sp (paramLookup s.parameters sp.name))).flatten⟩ := rfl

lemma validatorRun_schema (s : AgentState) :
    (validatorRun s).action_schema = s.action_schema := rfl

lemma validatorRun_context (s : AgentState) :
    (validatorRun s).context_variables = s.context_variables := rfl

lemma validatorRun_request (s : AgentState) :
    (validatorRun s).user_request = s.user_request := rfl

lemma repairRun_schema (s : AgentState) :
    (repairRun s).action_schema = s.action_schema := rfl

lemma repairRun_context (s : AgentState) :
    (repairRun s).context_variables = s.context_variables := rfl

lemma repairRun_request (s : AgentState) :
    (repairRun s).user_request = s.user_request := rfl

/-! ### Generator facts -/

lemma genOne_missing_required (extracted ctx : List (String × Value)) (spec : ParamSpec)
    (n : String) (h : genOne extracted ctx spec = .missing n) : spec.required = true := by
  unfold genOne at h
  rcases hl : List.lookup spec.name extracted with _ | v <;> rw [hl] at h
  · rcases hf : ctx.find? (fun kv => ctxMatches spec.name kv.1) with _ | kv <;> rw [hf] at h
    · by_cases hr : spec.required
      · exact hr
      · rw [if_neg hr] at h
        rcases htv : spec.test_value with _ | tv <;> rw [htv] at h <;> exact absurd h (by simp)
    · exact absurd h (by simp)
  · exact absurd h (by simp)

lemma genFold_missing_le (extracted ctx : List (String × Value)) (specs : List ParamSpec) :
    (genFold extracted ctx specs).2.length ≤ (specs.filter (·.required)).length := by
  induction specs with
  | nil => simp [genFold]
  | cons sp rest ih =>
    have hfc : ((sp :: rest).filter (·.required)).length =
        (if sp.required then 1 else 0) + (rest.filter (·.required)).length := by
      rw [List.filter_cons]
      split <;> simp [Nat.add_comm]
    rcases hg : genOne extracted ctx sp with p | n | _ <;>
      simp only [genFold, hg, hfc] <;>
      first
      | (split <;> omega)
      | · have := genOne_missing_required extracted ctx sp n hg
          simp [this]
          omega

/-- C10: the generator's confidence is `1` when the schema declares no
required parameter and `(countRequired - countMissing) / countRequired`
otherwise; the missing list never outgrows the required count, so the
confidence always lies in `[0, 1]`. -/
theorem generator_confidence_bound (s : AgentState) :
    (generatorRun s).missing_parameters.length ≤
        (s.action_schema.inputs.filter (·.required)).length
    ∧ (generatorRun s).parameter_confidence =
        (if (s.action_schema.inputs.filter (·.required)).length = 0 then 1
         else (((s.action_schema.inputs.filter (·.required)).length : ℚ) -
               ((generatorRun s).missing_parameters.length : ℚ)) /
              ((s.action_schema.inputs.filter (·.required)).length : ℚ))
    ∧ 0 ≤ (generatorRun s).parameter_confidence
    ∧ (generatorRun s).parameter_confidence ≤ 1 := by
  have hle : (generatorRun s).missing_parameters.length ≤
      (s.action_schema.inputs.filter (·.required)).length := by
    rw [generatorRun_missing]
    exact genFold_missing_le _ _ _
  have hconf : (generatorRun s).parameter_confidence =
      (if (s.action_schema.inputs.filter (·.required)).length = 0 then 1
       else (((s.action_schema.inputs.filter (·.required)).length : ℚ) -
             ((generatorRun s).missing_parameters.length : ℚ)) /
            ((s.action_schema.inputs.filter (·.required)).length : ℚ)) := rfl
  refine ⟨hle, hconf, ?_, ?_⟩
  · rw [hconf]
    split
    · norm_num
    · rename_i hR
      have hRpos : (0 : ℚ) < ((s.action_schema.inputs.filter (·.required)).length : ℚ) := by
        exact_mod_cast Nat.pos_of_ne_zero hR
      apply div_nonneg _ hRpos.le
      have : ((generatorRun s).missing_parameters.length : ℚ) ≤
          ((s.action_schema.inputs.filter (·.required)).length : ℚ) := by exact_mod_cast hle
      linarith
  · rw [hconf]
    split
    · norm_num
    · rename_i hR
      have hRpos : (0 : ℚ) < ((s.action_schema.inputs.filter (·.required)).length : ℚ) := by
        exact_mod_cast Nat.pos_of_ne_zero hR
      rw [div_le_one hRpos]
      have : (0 : ℚ) ≤ ((generatorRun s).missing_parameters.length : ℚ) := by positivity
      linarith

/-- C3: the generator is insensitive to the pre-existing `parameters` field —
two states agreeing on `action_schema`, `context_variables` and
`user_request` produce identical `parameters`, `missing_parameters` and
`parameter_confidence`, so bindings already in the state (including
repair-sourced placeholders) are discarded and rebuilt, never merged. -/
theorem generator_noninterference (s₁ s₂ : AgentState)
    (hschema : s₁.action_schema = s₂.action_schema)
    (hctx : s₁.context_variables = s₂.context_variables)
    (hreq : s₁.user_request = s₂.user_request) :
    (generatorRun s₁).parameters = (generatorRun s₂).parameters
    ∧ (generatorRun s₁).missing_parameters = (generatorRun s₂).missing_parameters
    ∧ (generatorRun s₁).parameter_confidence = (generatorRun s₂).parameter_confidence := by
  refine ⟨?_, ?_, ?_⟩
  · rw [generatorRun_parameters, generatorRun_parameters, hschema, hctx, hreq]
  · rw [generatorRun_missing, generatorRun_missing, hschema, hctx, hreq]
  · rw [generatorRun_confidence, generatorRun_confidence, hschema, hctx, hreq]

/-- Witness for C3: a state with no prior binding and the same state carrying
a repair-sourced placeholder binding generate identical outputs. -/
theorem generator_noninterference_witness :
    (generatorRun roundTripState).parameters =
      (generatorRun { roundTripState with
        parameters := [⟨"channel", .str "\x7b\x7bchannel\x7d\x7d", "repair"⟩] }).parameters
    ∧ (generatorRun roundTripState).missing_parameters =
        (generatorRun { roundTripState with
          parameters := [⟨"channel", .str "\x7b\x7bchannel\x7d\x7d", "repair"⟩] }).missing_parameters
    ∧ (generatorRun roundTripState).parameter_confidence =
        (generatorRun { roundTripState with
          parameters := [⟨"channel", .str "\x7b\x7bchannel\x7d\x7d", "repair"⟩] }).parameter_confidence :=
  generator_noninterference _ _ rfl rfl rfl

/-- C9: the relevance score is the capped sum of the intent-substring term,
the entity-substring term and the scaled parameter-overlap ratio, and it
always lies in `[0, 1]`. -/
theorem relevance_score_formula_and_bound (a : IntegrationAction) (r : ParsedRequest) :
    calculate_action_relevance a r =
      min ((if !(strLower (r.action_intent.getD "")).isEmpty &&
              containsSub (strLower (r.action_intent.getD "")) (strLower a.action)
            then (0.4 : ℚ) else 0) +
           (if !(strLower (r.entity_type.getD "")).isEmpty &&
              containsSub (strLower (r.entity_type.getD "")) (strLower a.action)
            then (0.4 : ℚ) else 0) +
           (if ((r.parameters.map Prod.fst).dedup).length > 0 then
              (0.2 : ℚ) *
                ((((r.parameters.map Prod.fst).dedup).filter
                    (fun k => ((a.inputs_schema.map (·.name)).dedup).contains k)).length : ℚ) /
                (((r.parameters.map Prod.fst).dedup).length : ℚ)
            else 0)) 1
    ∧ 0 ≤ calculate_action_relevance a r
    ∧ calculate_action_relevance a r ≤ 1 := by
  refine ⟨rfl, ?_, ?_⟩
  · show (0 : ℚ) ≤ calculate_action_relevance a r
    simp only [calculate_action_relevance]
    apply le_min _ (by norm_num)
    refine add_nonneg (add_nonneg ?_ ?_) ?_
    · split <;> norm_num
    · split <;> norm_num
    · split
      · positivity
      · norm_num
  · show calculate_action_relevance a r ≤ 1
    simp only [calculate_action_relevance]
    exact min_le_right _ _

/-! ### The validator's number check -/

lemma filter_ne_dot_of_no_dot (cs : List Char) (h : (cs.filter (· == '.')).length = 0) :
    cs.filter (· != '.') = cs := by
  rw [List.length_eq_zero] at h
  have hnone : ∀ x ∈ cs, ¬ ((x == '.') = true) := by
    intro x hx
    exact (List.filter_eq_nil_iff.mp h) x hx
  refine List.filter_eq_self.mpr ?_
  intro x hx
  have := hnone x hx
  simpa [bne] using this

lemma dot_mem_of_pos (cs : List Char) (h : 0 < (cs.filter (· == '.')).length) :
    '.' ∈ cs := by
  obtain ⟨x, hx⟩ := List.exists_mem_of_length_pos h
  have hmem := List.mem_filter.mp hx
  have hx' : x = '.' := by simpa using hmem.2
  exact hx' ▸ hmem.1

lemma all_digits_false_of_dot (cs : List Char) (h : '.' ∈ cs) :
    cs.all Char.isDigit = false := by
  simp only [List.all_eq_false]
  exact ⟨'.', h, by decide⟩

lemma allDigits_removeFirstDot (cs : List Char) :
    (removeFirstDot cs).all Char.isDigit =
      (decide ((cs.filter (· == '.')).length ≤ 1) &&
        (cs.filter (· != '.')).all Char.isDigit) := by
  induction cs with
  | nil => rfl
  | cons c cs ih =>
    by_cases hc : c = '.'
    · subst hc
      have h1 : removeFirstDot ('.' :: cs) = cs := by simp [removeFirstDot]
      have h2 : ('.' :: cs).filter (· == '.') = '.' :: cs.filter (· == '.') := by
        simp [List.filter_cons]
      have h3 : ('.' :: cs).filter (· != '.') = cs.filter (· != '.') := by
        simp [List.filter_cons]
      rw [h1, h2, h3]
      rcases Nat.eq_zero_or_pos ((cs.filter (· == '.')).length) with h0 | hpos
      · rw [filter_ne_dot_of_no_dot cs h0]
        simp [h0]
      · have hfalse := all_digits_false_of_dot cs (dot_mem_of_pos cs hpos)
        have hlen : ¬ (('.' :: cs.filter (· == '.')).length ≤ 1) := by
          simp only [List.length_cons]
          omega
        rw [hfalse, decide_eq_false hlen, Bool.false_and]
    · have hcb : (c == '.') = false := by simp [hc]
      have h1 : removeFirstDot (c :: cs) = c :: removeFirstDot cs := by
        simp [removeFirstDot, hcb]
      rw [h1]
      simp only [List.filter_cons, hcb, Bool.false_eq_true, if_false, bne, Bool.not_false,
        if_true, List.all_cons, ih]
      cases c.isDigit <;> cases (cs.filter (· != '.')).all Char.isDigit <;>
        cases hd : decide ((cs.filter (· == '.')).length ≤ 1) <;> simp

lemma pyIsDigit_removeFirstDot (cs : List Char) :
    pyIsDigit (removeFirstDot cs) =
      (decide ((cs.filter (· == '.')).length ≤ 1) && pyIsDigit (cs.filter (· != '.'))) := by
  cases cs with
  | nil => rfl
  | cons c cs =>
    by_cases hc : c = '.'
    · subst hc
      have h1 : removeFirstDot ('.' :: cs) = cs := by simp [removeFirstDot]
      have h2 : ('.' :: cs).filter (· == '.') = '.' :: cs.filter (· == '.') := by
        simp [List.filter_cons]
      have h3 : ('.' :: cs).filter (· != '.') = cs.filter (· != '.') := by
        simp [List.filter_cons]
      rw [h1, h2, h3]
      rcases Nat.eq_zero_or_pos ((cs.filter (· == '.')).length) with h0 | hpos
      · rw [filter_ne_dot_of_no_dot cs h0]
        simp [h0]
      · have hfalse := all_digits_false_of_dot cs (dot_mem_of_pos cs hpos)
        have hlen : ¬ (('.' :: cs.filter (· == '.')).length ≤ 1) := by
          simp only [List.length_cons]
          omega
        show (!cs.isEmpty && cs.all Char.isDigit) = _
        rw [hfalse, decide_eq_false hlen, Bool.and_false, Bool.false_and]
    · have hcb : (c == '.') = false := by simp [hc]
      have h1 : removeFirstDot (c :: cs) = c :: removeFirstDot cs := by
        simp [removeFirstDot, hcb]
      rw [h1]
      simp only [List.filter_cons, hcb, Bool.false_eq_true, if_false, bne, Bool.not_false,
        if_true, pyIsDigit, List.all_cons, List.isEmpty_cons, Bool.not_false,
        allDigits_removeFirstDot]
      cases c.isDigit <;> cases (cs.filter (· != '.')).all Char.isDigit <;>
        cases hd : decide ((cs.filter (· == '.')).length ≤ 1) <;> simp

lemma numberOk_eq_spec (v : Value) : numberOk v = specNumberValid v := by
  unfold numberOk specNumberValid
  rw [pyIsDigit_removeFirstDot]

/-- C7: with interface `number`, a bound value is accepted exactly when it is
numeric or its string form is an unsigned decimal numeral after removing at
most one decimal point; a rejected value yields exactly the one error
`Expected a number, got: {value}` — so `"42"` and `"4.2"` pass and `"4.2.2"`
fails. -/
theorem validator_number_check (spec : ParamSpec) (v : Value)
    (h : spec.interface = some "number") :
    (checkOne spec (some v) = [] ↔ specNumberValid v = true)
    ∧ (specNumberValid v = false →
        checkOne spec (some v) =
          [⟨spec.name, "Expected a number, got: " ++ pyStr v,
            some "Please provide a numeric value"⟩])
    ∧ specNumberValid (.str "42") = true
    ∧ specNumberValid (.str "4.2") = true
    ∧ specNumberValid (.str "4.2.2") = false := by
  have hck : checkOne spec (some v) =
      (if specNumberValid v then []
       else [⟨spec.name, "Expected a number, got: " ++ pyStr v,
              some "Please provide a numeric value"⟩]) := by
    rw [← numberOk_eq_spec]
    simp only [checkOne, h]
    cases hn : numberOk v <;> rcases ho : spec.options with _ | os <;> simp [hn, ho]
  refine ⟨?_, ?_, rfl, rfl, rfl⟩
  · rw [hck]
    cases hs : specNumberValid v <;> simp [hs]
  · intro h2
    rw [hck, h2]
    simp

/-- Witness for C7 at concrete inputs. -/
theorem validator_number_check_witness :
    checkOne { name := "amount", interface := some "number" } (some (.str "4.2.2")) =
      [⟨"amount", "Expected a number, got: 4.2.2", some "Please provide a numeric value"⟩]
    ∧ checkOne { name := "amount", interface := some "number" } (some (.str "42")) = [] := by
  constructor
  · exact (validator_number_check { name := "amount", interface := some "number" }
      (.str "4.2.2") rfl).2.1 rfl
  · exact (validator_number_check { name := "amount", interface := some "number" }
      (.str "42") rfl).1.mpr rfl

/-! ### Generator precedence -/

lemma find?_first_of_prefix {α : Type} (p : α → Bool) (pre : List α) (x : α) (post : List α)
    (hpre : ∀ y ∈ pre, p y = false) (hx : p x = true) :
    (pre ++ x :: post).find? p = some x := by
  induction pre with
  | nil => simp [List.find?_cons_of_pos _ hx]
  | cons y ys ih =>
    have hy := hpre y (List.mem_cons_self y ys)
    rw [List.cons_append, List.find?_cons_of_neg _ (by simp [hy])]
    exact ih fun z hz => hpre z (List.mem_cons_of_mem y hz)

/-- C6: per-spec binding precedence — an extracted user-request value always
wins (even when a context variable also matches); otherwise the first context
variable whose lowercased key contains the lowercased spec name binds a
template reference; otherwise a required spec goes to the missing list with
no binding and an optional spec binds its test value when present, else is
silently unbound; and the fold processes specs independently in declared
order. -/
theorem generator_binding_precedence (extracted ctx : List (String × Value))
    (spec : ParamSpec) :
    (∀ v, List.lookup spec.name extracted = some v →
        genOne extracted ctx spec = .bound ⟨spec.name, v, "user_request"⟩)
    ∧ (∀ pre post k v, List.lookup spec.name extracted = none →
        ctx = pre ++ (k, v) :: post →
        (∀ kv ∈ pre, ctxMatches spec.name kv.1 = false) →
        ctxMatches spec.name k = true →
        genOne extracted ctx spec =
          .bound ⟨spec.name, .str ("\x7b\x7b" ++ k ++ "\x7d\x7d"), "context"⟩)
    ∧ (List.lookup spec.name extracted = none →
        (∀ kv ∈ ctx, ctxMatches spec.name kv.1 = false) →
        spec.required = true →
        genOne extracted ctx spec = .missing spec.name)
    ∧ (List.lookup spec.name extracted = none →
        (∀ kv ∈ ctx, ctxMatches spec.name kv.1 = false) →
        spec.required = false →
        genOne extracted ctx spec =
          (match spec.test_value with
           | some tv => .bound ⟨spec.name, tv, "default"⟩
           | none => .skipped))
    ∧ (∀ specs₁ specs₂ : List ParamSpec,
        genFold extracted ctx (specs₁ ++ specs₂) =
          ((genFold extracted ctx specs₁).1 ++ (genFold extracted ctx specs₂).1,
           (genFold extracted ctx specs₁).2 ++ (genFold extracted ctx specs₂).2)) := by
  refine ⟨?_, ?_, ?_, ?_, ?_⟩
  · intro v hv
    simp [genOne, hv]
  · intro pre post k v hlk hctx hpre hk
    have hf : (pre ++ (k, v) :: post).find? (fun kv => ctxMatches spec.name kv.1) =
        some (k, v) := find?_first_of_prefix _ pre (k, v) post hpre hk
    rw [hctx]
    simp [genOne, hlk, hf]
  · intro hlk hall hreq
    have hf : ctx.find? (fun kv => ctxMatches spec.name kv.1) = none :=
      List.find?_eq_none.mpr fun kv hkv => by simp [hall kv hkv]
    simp [genOne, hlk, hf, hreq]
  · intro hlk hall hreq
    have hf : ctx.find? (fun kv => ctxMatches spec.name kv.1) = none :=
      List.find?_eq_none.mpr fun kv hkv => by simp [hall kv hkv]
    simp [genOne, hlk, hf, hreq]
  · intro specs₁ specs₂
    induction specs₁ with
    | nil => simp [genFold]
    | cons sp rest ih =>
      have ih1 := congrArg Prod.fst ih
      have ih2 := congrArg Prod.snd ih
      simp only [List.cons_append, genFold]
      cases genOne extracted ctx sp <;> simp [ih, ih1, ih2]

/-- Witness for C6: user text beats a matching context variable; the first
matching context key wins; an unresolved required spec is reported missing. -/
theorem generator_binding_precedence_witness :
    genOne [("title", Value.str "X")]
        [("zzz", Value.null), ("step_1.title_output", Value.str "Y")]
        { name := "title", required := true } =
      .bound ⟨"title", Value.str "X", "user_request"⟩
    ∧ genOne [] [("zzz", Value.null), ("step_1.title_output", Value.str "Y")]
        { name := "title", required := true } =
      .bound ⟨"title", Value.str "\x7b\x7bstep_1.title_output\x7d\x7d", "context"⟩
    ∧ genOne [] [("zzz", Value.null)] { name := "channel", required := true } =
      .missing "channel" := by
  refine ⟨?_, ?_, ?_⟩
  · exact (generator_binding_precedence _ _ _).1 (Value.str "X") rfl
  · exact (generator_binding_precedence _ _ _).2.1 [("zzz", Value.null)] []
      "step_1.title_output" (Value.str "Y") rfl rfl
      (by intro kv hkv; rcases List.mem_singleton.mp hkv with rfl; rfl) rfl
  · exact (generator_binding_precedence _ _ _).2.2.1 rfl
      (by intro kv hkv; rcases List.mem_singleton.mp hkv with rfl; rfl) rfl

/-! ### Selector sort: stable descending ranking -/

lemma orderedInsert_filter_score (x : ScoredAction) (l : List ScoredAction) (s : ℚ) :
    (List.orderedInsert (fun a b => b.score ≤ a.score) x l).filter
        (fun a => decide (a.score = s)) =
      if x.score = s then x :: l.filter (fun a => decide (a.score = s))
      else l.filter (fun a => decide (a.score = s)) := by
  induction l with
  | nil =>
    simp only [List.orderedInsert, List.filter_cons, List.filter_nil]
    by_cases hx : x.score = s <;> simp [hx]
  | cons b t ih =>
    by_cases hr : b.score ≤ x.score
    · rw [List.orderedInsert, if_pos hr]
      by_cases hx : x.score = s <;> simp [List.filter_cons, hx]
    · rw [List.orderedInsert, if_neg hr]
      have hlt : x.score < b.score := lt_of_not_le hr
      by_cases hx : x.score = s
      · have hb : ¬ (b.score = s) := by
          intro hbs
          rw [hx, hbs] at hlt
          exact lt_irrefl s hlt
        simp [List.filter_cons, hx, hb, ih]
      · by_cases hb : b.score = s <;> simp [List.filter_cons, hx, hb, ih]

lemma sortScoredDesc_filter_score (l : List ScoredAction) (s : ℚ) :
    (sortScoredDesc l).filter (fun a => decide (a.score = s)) =
      l.filter (fun a => decide (a.score = s)) := by
  induction l with
  | nil => rfl
  | cons x t ih =>
    rw [show sortScoredDesc (x :: t) =
          List.orderedInsert (fun a b => b.score ≤ a.score) x (sortScoredDesc t) from rfl,
        orderedInsert_filter_score]
    by_cases hx : x.score = s <;> simp [List.filter_cons, hx, ih]

lemma sortScoredDesc_sorted (l : List ScoredAction) :
    List.Sorted (fun a b : ScoredAction => b.score ≤ a.score) (sortScoredDesc l) := by
  haveI : IsTotal ScoredAction (fun a b => b.score ≤ a.score) :=
    ⟨fun a b => le_total b.score a.score⟩
  haveI : IsTrans ScoredAction (fun a b => b.score ≤ a.score) :=
    ⟨fun _ _ _ hab hbc => le_trans hbc hab⟩
  exact List.sorted_insertionSort _ l

lemma sortScoredDesc_perm (l : List ScoredAction) : List.Perm (sortScoredDesc l) l :=
  List.perm_insertionSort _ l

lemma find?_eq_filter_head? {α : Type} (p : α → Bool) (l : List α) :
    l.find? p = (l.filter p).head? := by
  induction l with
  | nil => rfl
  | cons x t ih =>
    cases hp : p x
    · rw [List.find?_cons_of_neg _ (by simp [hp]), List.filter_cons_of_neg (by simp [hp]), ih]
    · rw [List.find?_cons_of_pos _ hp, List.filter_cons_of_pos hp]
      rfl

lemma find?_congr_mem {α : Type} (p q : α → Bool) (l : List α)
    (h : ∀ a ∈ l, p a = q a) : l.find? p = l.find? q := by
  induction l with
  | nil => rfl
  | cons x t ih =>
    have hx := h x (List.mem_cons_self x t)
    cases hp : p x
    · rw [List.find?_cons_of_neg _ (by simp [hp]),
        List.find?_cons_of_neg _ (by simp [← hx, hp])]
      exact ih fun a ha => h a (List.mem_cons_of_mem x ha)
    · rw [List.find?_cons_of_pos _ hp, List.find?_cons_of_pos _ (by rw [← hx]; exact hp)]

lemma sortScoredDesc_head (l : List ScoredAction) :
    (sortScoredDesc l).head? =
      l.find? (fun a => l.all fun b => decide (b.score ≤ a.score)) := by
  cases hs : sortScoredDesc l with
  | nil =>
    have hl : l = [] := by
      have hperm := sortScoredDesc_perm l
      rw [hs] at hperm
      exact hperm.symm.eq_nil
    rw [hl]
    rfl
  | cons b t =>
    have hperm := sortScoredDesc_perm l
    rw [hs] at hperm
    have hsorted := sortScoredDesc_sorted l
    rw [hs] at hsorted
    have hmax : ∀ a ∈ l, a.score ≤ b.score := by
      intro a ha
      have hmem : a ∈ b :: t := hperm.mem_iff.mpr ha
      rcases List.mem_cons.mp hmem with h | h
      · rw [h]
      · exact List.rel_of_sorted_cons hsorted a h
    have hb : b ∈ l := hperm.subset (List.mem_cons_self b t)
    have hcongr : ∀ a ∈ l,
        (l.all fun c => decide (c.score ≤ a.score)) = decide (a.score = b.score) := by
      intro a ha
      by_cases he : a.score = b.score
      · have h1 : (l.all fun c => decide (c.score ≤ a.score)) = true := by
          rw [List.all_eq_true]
          intro c hc
          simpa using he ▸ hmax c hc
        rw [h1, he]
        simp
      · have hnb : ¬ (b.score ≤ a.score) := fun hle => he (le_antisymm (hmax a ha) hle)
        have h1 : (l.all fun c => decide (c.score ≤ a.score)) = false := by
          rw [List.all_eq_false]
          exact ⟨b, hb, by simpa using hnb⟩
        rw [h1]
        simp [he]
    rw [find?_congr_mem _ _ l hcongr, find?_eq_filter_head?,
      ← sortScoredDesc_filter_score l b.score, hs, List.filter_cons_of_pos (by simp)]
    rfl

/-- C8: the selector's ranking of the scored candidates is sorted by
descending score, candidates of equal score keep their catalog order (the
score-`s` subsequence of the ranking equals that of the unsorted list for
every `s`), and the head of the ranking is the first-registered candidate
achieving the maximal score. -/
theorem selector_tiebreak_stability (parsed_request : ParsedRequest)
    (actions : List IntegrationAction) :
    List.Sorted (fun a b : ScoredAction => b.score ≤ a.score)
      (sortScoredDesc (scoredCandidates parsed_request actions))
    ∧ (∀ s : ℚ,
        (sortScoredDesc (scoredCandidates parsed_request actions)).filter
            (fun a => decide (a.score = s)) =
          (scoredCandidates parsed_request actions).filter
            (fun a => decide (a.score = s)))
    ∧ (sortScoredDesc (scoredCandidates parsed_request actions)).head? =
        (scoredCandidates parsed_request actions).find?
          (fun a => (scoredCandidates parsed_request actions).all
            fun b => decide (b.score ≤ a.score)) :=
  ⟨sortScoredDesc_sorted _, fun s => sortScoredDesc_filter_score _ s, sortScoredDesc_head _⟩

/-! ### Selector totality -/

/-- Counterexample for C4: with the `platform` key absent, the selector does
not return a structured error result — it raises a `KeyError` (modelled as
`Except.error`). -/
theorem selector_absent_platform_raises :
    select_integration_action { platform := none } [] =
      Except.error "KeyError: \x27platform\x27" := rfl

/-- C4 (amended): whenever the intent carries a platform string (possibly
empty) that matches no catalog action case-insensitively, the selector
returns a structured result with status `error`, no action, confidence `0`
and no alternatives, without raising; an absent platform key instead raises
`KeyError`. -/
theorem selector_no_match_total (parsed_request : ParsedRequest) (platform : String)
    (actions : List IntegrationAction)
    (hplat : parsed_request.platform = some platform)
    (hfilter : actions.filter
        (fun a => strLower a.integration == strLower platform) = []) :
    select_integration_action parsed_request actions =
      .ok { status := "error",
            message := some ("No actions available for platform: " ++ platform),
            action := none, confidence := 0,
            alternatives := none, needs_clarification := none } := by
  simp [select_integration_action, hplat, hfilter]

/-- Witness for C4's amended statement: an unknown platform and the empty
platform string both produce the structured error result. -/
theorem selector_no_match_total_witness :
    select_integration_action { platform := some "slack" } [] =
      .ok { status := "error",
            message := some "No actions available for platform: slack",
            action := none, confidence := 0,
            alternatives := none, needs_clarification := none }
    ∧ select_integration_action { platform := some "" } [slackSendMessage] =
      .ok { status := "error",
            message := some "No actions available for platform: ",
            action := none, confidence := 0,
            alternatives := none, needs_clarification := none } :=
  ⟨selector_no_match_total _ "slack" _ rfl rfl,
   selector_no_match_total _ "" _ rfl rfl⟩

/-! ### The repair round trip and the repair loop -/

/-- C1 (code bug): in the round-trip scenario the generator reports
`missing_parameters = ["channel"]`, the validator reports exactly one
`Required parameter is missing` error, repair appends the
`\x7b\x7bchannel\x7d\x7d` placeholder binding — but the orchestrator then
routes back through the generator, which rebuilds the bindings and discards
the repair placeholder, so the second Generate→Validate pass is again
invalid: re-validation never passes, contrary to the claim. -/
theorem repair_roundtrip_revalidation_fails :
    (select_integration_action slackIntent [slackSendMessage]).toOption.map
        (fun r => (r.action, r.needs_clarification)) =
      some (some slackSendMessage, some false)
    ∧ (generatorRun roundTripState).missing_parameters = ["channel"]
    ∧ (validatorRun (generatorRun roundTripState)).validation_result =
        some ⟨false, [channelMissingError]⟩
    ∧ (repairRun (validatorRun (generatorRun roundTripState))).parameters =
        [⟨"channel", .str "\x7b\x7bchannel\x7d\x7d", "repair"⟩]
    ∧ validation_router (validatorRun (generatorRun roundTripState)) = "repair"
    ∧ (validatorRun (generatorRun (repairRun (validatorRun
        (generatorRun roundTripState))))).validation_result =
        some ⟨false, [channelMissingError]⟩ :=
  ⟨rfl, rfl, rfl, rfl, rfl, rfl⟩

lemma repairCycle_schema (s : AgentState) :
    (repairCycle s).action_schema = s.action_schema := rfl

lemma repairCycle_context (s : AgentState) :
    (repairCycle s).context_variables = s.context_variables := rfl

lemma repairCycle_request (s : AgentState) :
    (repairCycle s).user_request = s.user_request := rfl

lemma genval_invalid (s : AgentState)
    (h1 : s.action_schema = .list [channelSpec])
    (h2 : s.context_variables = [])
    (h3 : s.user_request = "Send a Slack message to the team") :
    (validatorRun (generatorRun s)).validation_result =
      some ⟨false, [channelMissingError]⟩ := by
  have hp : (generatorRun s).parameters = [] := by
    rw [generatorRun_parameters, h1, h2, h3]
    rfl
  have hs : (generatorRun s).action_schema = SchemaVal.list [channelSpec] := by
    rw [generatorRun_schema, h1]
  rw [validatorRun_result, hs, hp]
  rfl

/-- C2 (code bug): on the structurally unrepairable round-trip schema, every
iteration of the orchestrator's `Validate → Repair → Generate → Validate`
cycle leaves the state invalid, so `validation_router` chooses `repair`
forever — the loop has no iteration cap and never terminates. -/
theorem repair_loop_unbounded (s : AgentState) (n : ℕ)
    (h1 : s.action_schema = .list [channelSpec])
    (h2 : s.context_variables = [])
    (h3 : s.user_request = "Send a Slack message to the team") :
    validation_router (repairCycle^[n] (validatorRun (generatorRun s))) = "repair" := by
  have hinv : ∀ m : ℕ,
      (repairCycle^[m] (validatorRun (generatorRun s))).action_schema = .list [channelSpec]
      ∧ (repairCycle^[m] (validatorRun (generatorRun s))).context_variables = []
      ∧ (repairCycle^[m] (validatorRun (generatorRun s))).user_request =
          "Send a Slack message to the team"
      ∧ (repairCycle^[m] (validatorRun (generatorRun s))).validation_result =
          some ⟨false, [channelMissingError]⟩ := by
    intro m
    induction m with
    | zero =>
      refine ⟨?_, ?_, ?_, ?_⟩
      · rw [Function.iterate_zero_apply, validatorRun_schema, generatorRun_schema, h1]
      · rw [Function.iterate_zero_apply, validatorRun_context, generatorRun_context, h2]
      · rw [Function.iterate_zero_apply, validatorRun_request, generatorRun_request, h3]
      · rw [Function.iterate_zero_apply]
        exact genval_invalid s h1 h2 h3
    | succ m ih =>
      obtain ⟨ia, ic, iu, _⟩ := ih
      refine ⟨?_, ?_, ?_, ?_⟩
      · rw [Function.iterate_succ_apply', repairCycle_schema, ia]
      · rw [Function.iterate_succ_apply', repairCycle_context, ic]
      · rw [Function.iterate_succ_apply', repairCycle_request, iu]
      · rw [Function.iterate_succ_apply']
        show (validatorRun (generatorRun (repairRun _))).validation_result = _
        exact genval_invalid _ (by rw [repairRun_schema, ia])
          (by rw [repairRun_context, ic]) (by rw [repairRun_request, iu])
  obtain ⟨_, _, _, hv⟩ := hinv n
  unfold validation_router
  rw [hv]
  rfl

/-- Witness for C2 at the concrete round-trip state after two full repair
cycles. -/
theorem repair_loop_unbounded_witness :
    validation_router (repairCycle^[2] (validatorRun (generatorRun roundTripState))) =
      "repair" :=
  repair_loop_unbounded roundTripState 2 rfl rfl rfl

/-! ### The special-case integration config -/

/-- C5 (code bug): on the orchestrator's state shape — `action_schema`
holding the inputs-schema list — the integration-step creation raises and the
bare-except fallback emits a flat `parameters` config with no `dynamic` key
even for `notion`; `_adapt_integration_config` itself (second conjunct) would
produce the claimed `dynamic`-only shape, but the wired pipeline bypasses
it. -/
theorem notion_dynamic_config_bypassed :
    (workflowGeneratorRun notionState).workflow_definition.map (·.definition) =
      some [⟨"integration_action", "integration",
        .integrationCfg "notion" "Create Page"
          (some [("title", Value.str "Hello")]) none⟩]
    ∧ adapt_integration_config notionCreatePage [("title", Value.str "Hello")] =
        .integrationCfg "\x7bnotion_integration\x7d" "Create Page" none
          (some [("title", Value.str "Hello")]) :=
  ⟨rfl, rfl⟩
